import Mathlib

/-
Verification of src/libcore/failure.rs: the failure declaration and dispatch
boundary of libcore.  The module offers two failure entry points, each in a
length-prefixed and a null-terminated (stage0) variant, funnels everything
through the public begin_unwind wrapper into an externally linked hook, and
falls back to the processor abort intrinsic if that hook ever returns.

The embedding is a trace semantics: a call to an entry point yields the list
of externally observable events (calls to the extern dispatch-hook symbol and
invocations of the abort intrinsic) together with a terminal outcome.  The
externally linked hook is an unknown of the model, represented by a predicate
saying, per invocation, whether the hook violates its never-return contract.
-/

namespace Failure

/-- Arguments carried across the link-time boundary into the external
unwinding hook: the formatted message, the file name and the line number. -/
structure Invocation where
  msg : String
  file : String
  line : Nat
deriving DecidableEq, Repr

/-- Externally observable events of one failure call: a call of the extern
dispatch-hook symbol, or the abort intrinsic firing. -/
inductive Event where
  | dispatchHook (inv : Invocation)
  | abort
deriving DecidableEq, Repr

/-- Terminal outcome of a call: the hook halted the thread as contracted,
control came back to the caller, or the abort intrinsic halted the process. -/
inductive Outcome where
  | halted
  | returned
  | aborted
deriving DecidableEq, Repr

/-- The externally linked dispatch hook, modelled by whether it violates its
never-return contract on a given invocation. -/
def Hook : Type := Invocation → Bool

/-- Rendering of a format_args template: each \x7b\x7d hole in the template is
replaced by the next argument, inserted verbatim (the argument text is never
re-scanned for holes); all other template characters are copied through. -/
def renderTemplate : List Char → List String → List Char
  | '\x7b' :: '\x7d' :: rest, a :: as => a.data ++ renderTemplate rest as
  | c :: rest, as => c :: renderTemplate rest as
  | [], _ => []

/-- The public begin_unwind wrapper: passes its three arguments to the extern
symbol (rust_begin_unwind on stage0, the begin_unwind lang item otherwise)
in one call; the extern call either never returns or, violating its
contract, hands control back. -/
def begin_unwind (hook : Hook) (fmt : String) (file : String) (line : Nat) :
    List Event × Outcome :=
  let inv : Invocation := ⟨fmt, file, line⟩
  ([Event.dispatchHook inv],
   if hook inv then Outcome.returned else Outcome.halted)

/-- The fail_ lang item, current (length-prefixed) variant: formats the
expression through the literal template "\x7b\x7d", calls begin_unwind with it
and the given file and line, and aborts should control ever come back. -/
def fail_ (hook : Hook) (expr : String) (file : String) (line : Nat) :
    List Event × Outcome :=
  let msg : String := ⟨renderTemplate "\x7b\x7d".data [expr]⟩
  match begin_unwind hook msg file line with
  | (evs, Outcome.returned) => (evs ++ [Event.abort], Outcome.aborted)
  | (evs, o) => (evs, o)

/-- The fixed template of the bounds-check failure message. -/
def boundsTemplate : String :=
  "index out of bounds: the len is \x7b\x7d but the index is \x7b\x7d"

/-- The fail_bounds_check lang item, current (length-prefixed) variant:
renders the fixed template with len then index, calls begin_unwind, and
aborts should control ever come back. -/
def fail_bounds_check (hook : Hook) (file : String) (line : Nat)
    (index : Nat) (len : Nat) : List Event × Outcome :=
  let msg : String :=
    ⟨renderTemplate boundsTemplate.data [Nat.repr len, Nat.repr index]⟩
  match begin_unwind hook msg file line with
  | (evs, Outcome.returned) => (evs ++ [Event.abort], Outcome.aborted)
  | (evs, o) => (evs, o)

/-- str::raw::c_str_to_static_slice: scan forward from the pointer and view
the bytes up to, and not including, the first zero byte. -/
def c_str_to_static_slice : List Nat → List Nat
  | [] => []
  | b :: rest => if b = 0 then [] else b :: c_str_to_static_slice rest

/-- Bridge between the byte view of a static C string and the string type of
the length-prefixed representation. -/
def decodeBytes (bs : List Nat) : String := ⟨bs.map Char.ofNat⟩

/-- The fail_ lang item, stage0 (null-terminated) variant: converts both byte
pointers through c_str_to_static_slice, then proceeds as the current
variant. -/
def fail_stage0 (hook : Hook) (expr : List Nat) (file : List Nat)
    (line : Nat) : List Event × Outcome :=
  let exprS : String := decodeBytes (c_str_to_static_slice expr)
  let fileS : String := decodeBytes (c_str_to_static_slice file)
  let msg : String := ⟨renderTemplate "\x7b\x7d".data [exprS]⟩
  match begin_unwind hook msg fileS line with
  | (evs, Outcome.returned) => (evs ++ [Event.abort], Outcome.aborted)
  | (evs, o) => (evs, o)

/-- The fail_bounds_check lang item, stage0 (null-terminated) variant:
converts the file byte pointer through c_str_to_static_slice, then proceeds
as the current variant. -/
def fail_bounds_check_stage0 (hook : Hook) (file : List Nat) (line : Nat)
    (index : Nat) (len : Nat) : List Event × Outcome :=
  let fileS : String := decodeBytes (c_str_to_static_slice file)
  let msg : String :=
    ⟨renderTemplate boundsTemplate.data [Nat.repr len, Nat.repr index]⟩
  match begin_unwind hook msg fileS line with
  | (evs, Outcome.returned) => (evs ++ [Event.abort], Outcome.aborted)
  | (evs, o) => (evs, o)

/-- The dispatch-hook invocations appearing in a trace, in order. -/
def dispatches (t : List Event) : List Invocation :=
  t.filterMap fun e =>
    match e with
    | Event.dispatchHook inv => some inv
    | Event.abort => none

/-- Code-layout attributes a function definition carries in the source. -/
structure FnAttrs where
  cold : Bool
  inline_never : Bool
deriving DecidableEq, Repr

/-- Attributes on fail_ (current): cold and inline(never). -/
def fail_attrs : FnAttrs := ⟨true, true⟩

/-- Attributes on fail_ (stage0): cold and inline(never). -/
def fail_stage0_attrs : FnAttrs := ⟨true, true⟩

/-- Attributes on fail_bounds_check (current): cold only. -/
def fail_bounds_check_attrs : FnAttrs := ⟨true, false⟩

/-- Attributes on fail_bounds_check (stage0): cold only. -/
def fail_bounds_check_stage0_attrs : FnAttrs := ⟨true, false⟩

/-- Attributes on begin_unwind: cold only. -/
def begin_unwind_attrs : FnAttrs := ⟨true, false⟩

/-- The message dispatched by the bounds-check entry points, as a plain
string: the fixed text with the decimal rendering of len first and of index
second. -/
def boundsMsg (index : Nat) (len : Nat) : String :=
  "index out of bounds: the len is " ++ Nat.repr len ++
    " but the index is " ++ Nat.repr index

/-- A hole consumes the next argument verbatim. -/
theorem renderTemplate_hole (rest : List Char) (a : String)
    (as : List String) :
    renderTemplate ('\x7b' :: '\x7d' :: rest) (a :: as) =
      a.data ++ renderTemplate rest as :=
  renderTemplate.eq_1 rest a as

/-- A character other than an opening brace is copied through. -/
theorem renderTemplate_cons_ne (c : Char) (rest : List Char)
    (as : List String) (h : c ≠ '\x7b') :
    renderTemplate (c :: rest) as = c :: renderTemplate rest as :=
  renderTemplate.eq_2 as c rest (fun _ _ _ hc _ _ => h hc)

/-- A literal stretch of the template free of opening braces is copied
through. -/
theorem renderTemplate_lit (cs t : List Char) (as : List String)
    (h : '\x7b' ∉ cs) :
    renderTemplate (cs ++ t) as = cs ++ renderTemplate t as := by
  induction cs with
  | nil => rfl
  | cons c cs ih =>
    have hc : c ≠ '\x7b' := fun hceq => h (by simp [hceq])
    have hcs : '\x7b' ∉ cs := fun hmem => h (List.mem_cons_of_mem _ hmem)
    rw [List.cons_append, renderTemplate_cons_ne c _ as hc, ih hcs,
      List.cons_append]

/-- Rendering the single-hole template returns the argument unchanged, its
own braces uninterpreted. -/
theorem render_single (s : String) :
    (⟨renderTemplate "\x7b\x7d".data [s]⟩ : String) = s := by
  show (⟨renderTemplate ('\x7b' :: '\x7d' :: []) [s]⟩ : String) = s
  rw [renderTemplate_hole]
  cases s
  simp [renderTemplate]

/-- Rendering the bounds template substitutes the two arguments, in order,
into the two holes. -/
theorem render_bounds (lenS idxS : String) :
    (⟨renderTemplate boundsTemplate.data [lenS, idxS]⟩ : String) =
      "index out of bounds: the len is " ++ lenS ++
        " but the index is " ++ idxS := by
  have h1 : boundsTemplate.data =
      "index out of bounds: the len is ".data ++
        ('\x7b' :: '\x7d' :: (" but the index is ".data ++
          ('\x7b' :: '\x7d' :: []))) := by decide
  rw [h1, renderTemplate_lit _ _ _ (by decide), renderTemplate_hole,
    renderTemplate_lit _ _ _ (by decide), renderTemplate_hole,
    renderTemplate.eq_3]
  apply String.ext
  show _ = ((("index out of bounds: the len is ".data ++ lenS.data) ++
    " but the index is ".data) ++ idxS.data)
  simp

/-- Characterization of fail_: one dispatch of the literal message, then an
abort exactly when the hook hands control back. -/
theorem fail_eq (hook : Hook) (expr file : String) (line : Nat) :
    fail_ hook expr file line =
      if hook ⟨expr, file, line⟩ then
        ([Event.dispatchHook ⟨expr, file, line⟩, Event.abort],
          Outcome.aborted)
      else
        ([Event.dispatchHook ⟨expr, file, line⟩], Outcome.halted) := by
  unfold fail_ begin_unwind
  rw [render_single]
  cases h : hook ⟨expr, file, line⟩ <;> simp [h]

/-- Characterization of fail_bounds_check: one dispatch of the rendered
bounds message, then an abort exactly when the hook hands control back. -/
theorem fail_bounds_check_eq (hook : Hook) (file : String)
    (line index len : Nat) :
    fail_bounds_check hook file line index len =
      if hook ⟨boundsMsg index len, file, line⟩ then
        ([Event.dispatchHook ⟨boundsMsg index len, file, line⟩,
          Event.abort], Outcome.aborted)
      else
        ([Event.dispatchHook ⟨boundsMsg index len, file, line⟩],
          Outcome.halted) := by
  unfold fail_bounds_check begin_unwind
  rw [show (⟨renderTemplate boundsTemplate.data
      [Nat.repr len, Nat.repr index]⟩ : String) = boundsMsg index len from
    render_bounds (Nat.repr len) (Nat.repr index)]
  cases h : hook ⟨boundsMsg index len, file, line⟩ <;> simp [h]

/-- The stage0 variant of fail_ is fail_ after converting both byte
strings. -/
theorem fail_stage0_eq (hook : Hook) (expr file : List Nat) (line : Nat) :
    fail_stage0 hook expr file line =
      fail_ hook (decodeBytes (c_str_to_static_slice expr))
        (decodeBytes (c_str_to_static_slice file)) line := rfl

/-- The stage0 variant of fail_bounds_check is fail_bounds_check after
converting the file byte string. -/
theorem fail_bounds_check_stage0_eq (hook : Hook) (file : List Nat)
    (line index len : Nat) :
    fail_bounds_check_stage0 hook file line index len =
      fail_bounds_check hook (decodeBytes (c_str_to_static_slice file))
        line index len := rfl

/-- Every fail_ trace carries exactly one hook invocation: the literal
message with the given file and line. -/
theorem dispatches_fail_ (hook : Hook) (expr file : String) (line : Nat) :
    dispatches (fail_ hook expr file line).1 =
      [⟨expr, file, line⟩] := by
  rw [fail_eq]
  cases h : hook ⟨expr, file, line⟩ <;> simp [dispatches]

/-- Every fail_bounds_check trace carries exactly one hook invocation: the
rendered bounds message with the given file and line. -/
theorem dispatches_fail_bounds_check (hook : Hook) (file : String)
    (line index len : Nat) :
    dispatches (fail_bounds_check hook file line index len).1 =
      [⟨boundsMsg index len, file, line⟩] := by
  rw [fail_bounds_check_eq]
  cases h : hook ⟨boundsMsg index len, file, line⟩ <;> simp [dispatches]

/-- fail_ never hands control back to its caller. -/
theorem fail_not_returned (hook : Hook) (expr file : String) (line : Nat) :
    (fail_ hook expr file line).2 ≠ Outcome.returned := by
  rw [fail_eq]
  cases h : hook ⟨expr, file, line⟩ <;> simp

/-- fail_bounds_check never hands control back to its caller. -/
theorem fail_bounds_check_not_returned (hook : Hook) (file : String)
    (line index len : Nat) :
    (fail_bounds_check hook file line index len).2 ≠
      Outcome.returned := by
  rw [fail_bounds_check_eq]
  cases h : hook ⟨boundsMsg index len, file, line⟩ <;> simp

/-- Scanning a byte string that is a zero-free prefix followed by a zero
byte yields exactly that prefix. -/
theorem c_str_to_static_slice_scan (pre post : List Nat) (h : 0 ∉ pre) :
    c_str_to_static_slice (pre ++ 0 :: post) = pre := by
  induction pre with
  | nil => simp [c_str_to_static_slice]
  | cons b bs ih =>
    have hb : b ≠ 0 := fun hb0 => h (by simp [hb0])
    have hbs : 0 ∉ bs := fun hmem => h (List.mem_cons_of_mem _ hmem)
    simp [c_str_to_static_slice, hb, ih hbs]

/-- The byte string of the scenario file name, with its null terminator. -/
def mainRsBytes : List Nat := [109, 97, 105, 110, 46, 114, 115, 0]

/-- C1: for every message and location, fail_ invokes the dispatch hook
exactly once, with the literal message unchanged (no template substitution,
braces in the message uninterpreted) and the given file and line, and
control never returns to the caller. -/
theorem C1_fail_dispatches_literal_once (hook : Hook) (msg file : String)
    (line : Nat) :
    dispatches (fail_ hook msg file line).1 = [⟨msg, file, line⟩] ∧
    (fail_ hook msg file line).2 ≠ Outcome.returned :=
  ⟨dispatches_fail_ hook msg file line, fail_not_returned hook msg file line⟩

/-- C2: for every index, len and location, fail_bounds_check invokes the
dispatch hook exactly once, with the fixed text holding the decimal
rendering of len first and of index second, and the given file and line. -/
theorem C2_bounds_check_message (hook : Hook) (file : String)
    (line index len : Nat) :
    dispatches (fail_bounds_check hook file line index len).1 =
      [⟨"index out of bounds: the len is " ++ Nat.repr len ++
          " but the index is " ++ Nat.repr index, file, line⟩] ∧
    (fail_bounds_check hook file line index len).2 ≠ Outcome.returned :=
  ⟨dispatches_fail_bounds_check hook file line index len,
    fail_bounds_check_not_returned hook file line index len⟩

/-- C3: on any failure call whose hook hands control back in violation of
its contract, the abort intrinsic fires exactly once as the very last event
of the trace, and the call ends in the terminal aborted outcome — never
back in the idle state of the caller. -/
theorem C3_hook_return_aborts (hook : Hook) (msg file : String)
    (line index len : Nat) (h : ∀ inv, hook inv = true) :
    ((fail_ hook msg file line).1 =
        [Event.dispatchHook ⟨msg, file, line⟩, Event.abort] ∧
      (fail_ hook msg file line).1.count Event.abort = 1 ∧
      (fail_ hook msg file line).2 = Outcome.aborted) ∧
    ((fail_bounds_check hook file line index len).1 =
        [Event.dispatchHook ⟨boundsMsg index len, file, line⟩,
          Event.abort] ∧
      (fail_bounds_check hook file line index len).1.count
        Event.abort = 1 ∧
      (fail_bounds_check hook file line index len).2 =
        Outcome.aborted) := by
  rw [fail_eq, fail_bounds_check_eq, h ⟨msg, file, line⟩,
    h ⟨boundsMsg index len, file, line⟩]
  simp [List.count_cons]

/-- C3 witness: a uniformly contract-violating hook at a concrete call. -/
theorem C3_hook_return_aborts_witness :
    ((fail_ (fun _ => true) "a" "f" 1).1 =
        [Event.dispatchHook ⟨"a", "f", 1⟩, Event.abort] ∧
      (fail_ (fun _ => true) "a" "f" 1).1.count Event.abort = 1 ∧
      (fail_ (fun _ => true) "a" "f" 1).2 = Outcome.aborted) ∧
    ((fail_bounds_check (fun _ => true) "f" 1 5 3).1 =
        [Event.dispatchHook ⟨boundsMsg 5 3, "f", 1⟩, Event.abort] ∧
      (fail_bounds_check (fun _ => true) "f" 1 5 3).1.count
        Event.abort = 1 ∧
      (fail_bounds_check (fun _ => true) "f" 1 5 3).2 =
        Outcome.aborted) :=
  C3_hook_return_aborts (fun _ => true) "a" "f" 1 5 3 (fun _ => rfl)

/-- C4: the legacy conversion scans to the first zero byte and yields
exactly the bytes before it; on the null-terminated bytes of "main.rs" it
yields the string "main.rs"; and the line accompanying the converted file
reaches the hook unchanged. -/
theorem C4_legacy_location_conversion (pre post expr : List Nat)
    (hook : Hook) (line : Nat) (h : 0 ∉ pre) :
    c_str_to_static_slice (pre ++ 0 :: post) = pre ∧
    decodeBytes (c_str_to_static_slice mainRsBytes) = "main.rs" ∧
    dispatches (fail_stage0 hook expr mainRsBytes line).1 =
      [⟨decodeBytes (c_str_to_static_slice expr), "main.rs", line⟩] := by
  refine ⟨c_str_to_static_slice_scan pre post h, by decide, ?_⟩
  rw [fail_stage0_eq,
    show decodeBytes (c_str_to_static_slice mainRsBytes) = "main.rs"
      by decide]
  exact dispatches_fail_ hook _ "main.rs" line

/-- C4 witness: concrete zero-free prefix and concrete call. -/
theorem C4_legacy_location_conversion_witness :
    c_str_to_static_slice ([109, 97, 105, 110, 46, 114, 115] ++
        0 :: []) = [109, 97, 105, 110, 46, 114, 115] ∧
    decodeBytes (c_str_to_static_slice mainRsBytes) = "main.rs" ∧
    dispatches (fail_stage0 (fun _ => false) [97, 0] mainRsBytes 10).1 =
      [⟨decodeBytes (c_str_to_static_slice [97, 0]), "main.rs", 10⟩] :=
  C4_legacy_location_conversion [109, 97, 105, 110, 46, 114, 115] []
    [97, 0] (fun _ => false) 10 (by decide)

/-- C5: the stage0 and current variants agree: whenever the null-terminated
byte arguments decode to the length-prefixed string arguments, both
variants of each entry point return the identical trace and outcome. -/
theorem C5_stage0_current_equiv (hook : Hook) (exprB fileB : List Nat)
    (expr file : String) (line index len : Nat)
    (he : decodeBytes (c_str_to_static_slice exprB) = expr)
    (hf : decodeBytes (c_str_to_static_slice fileB) = file) :
    fail_stage0 hook exprB fileB line = fail_ hook expr file line ∧
    fail_bounds_check_stage0 hook fileB line index len =
      fail_bounds_check hook file line index len := by
  subst he hf
  exact ⟨rfl, rfl⟩

/-- C5 witness: concrete byte strings decoding to concrete strings. -/
theorem C5_stage0_current_equiv_witness :
    decodeBytes (c_str_to_static_slice [97, 0]) = "a" ∧
    decodeBytes (c_str_to_static_slice [102, 0]) = "f" ∧
    (fail_stage0 (fun _ => false) [97, 0] [102, 0] 3 =
        fail_ (fun _ => false) "a" "f" 3 ∧
      fail_bounds_check_stage0 (fun _ => false) [102, 0] 3 5 2 =
        fail_bounds_check (fun _ => false) "f" 3 5 2) :=
  ⟨by decide, by decide,
    C5_stage0_current_equiv (fun _ => false) [97, 0] [102, 0] "a" "f"
      3 5 2 (by decide) (by decide)⟩

/-- C6 counterexample: the claim that both entry points are marked cold and
never inlined in every build configuration is false — fail_bounds_check
carries no inline(never) marking. -/
theorem C6_cold_inline_counterexample :
    ¬ (fail_attrs.cold = true ∧ fail_attrs.inline_never = true ∧
       fail_stage0_attrs.cold = true ∧
       fail_stage0_attrs.inline_never = true ∧
       fail_bounds_check_attrs.cold = true ∧
       fail_bounds_check_attrs.inline_never = true ∧
       fail_bounds_check_stage0_attrs.cold = true ∧
       fail_bounds_check_stage0_attrs.inline_never = true) := by decide

/-- C6 amended: every entry point is marked cold in every build
configuration; both fail_ variants are additionally marked inline(never),
while neither fail_bounds_check variant carries an inline marking. -/
theorem C6_cold_inline_attrs :
    fail_attrs.cold = true ∧ fail_attrs.inline_never = true ∧
    fail_stage0_attrs.cold = true ∧
    fail_stage0_attrs.inline_never = true ∧
    fail_bounds_check_attrs.cold = true ∧
    fail_bounds_check_attrs.inline_never = false ∧
    fail_bounds_check_stage0_attrs.cold = true ∧
    fail_bounds_check_stage0_attrs.inline_never = false := by decide

/-- C7: every failure call diverges: no variant of either entry point can
end with control handed back to the caller, and under a contract-abiding
hook begin_unwind ends in the halted outcome. -/
theorem C7_every_call_diverges (hook : Hook) (msg file : String)
    (line index len : Nat) (exprB fileB : List Nat)
    (hc : ∀ inv, hook inv = false) :
    (fail_ hook msg file line).2 ≠ Outcome.returned ∧
    (fail_bounds_check hook file line index len).2 ≠ Outcome.returned ∧
    (fail_stage0 hook exprB fileB line).2 ≠ Outcome.returned ∧
    (fail_bounds_check_stage0 hook fileB line index len).2 ≠
      Outcome.returned ∧
    (begin_unwind hook msg file line).2 = Outcome.halted := by
  refine ⟨fail_not_returned hook msg file line,
    fail_bounds_check_not_returned hook file line index len,
    ?_, ?_, ?_⟩
  · rw [fail_stage0_eq]
    exact fail_not_returned hook _ _ line
  · rw [fail_bounds_check_stage0_eq]
    exact fail_bounds_check_not_returned hook _ line index len
  · simp [begin_unwind, hc]

/-- C7 witness: a contract-abiding hook at a concrete call. -/
theorem C7_every_call_diverges_witness :
    (fail_ (fun _ => false) "m" "f" 2).2 ≠ Outcome.returned ∧
    (fail_bounds_check (fun _ => false) "f" 2 4 1).2 ≠
      Outcome.returned ∧
    (fail_stage0 (fun _ => false) [97, 0] [102, 0] 2).2 ≠
      Outcome.returned ∧
    (fail_bounds_check_stage0 (fun _ => false) [102, 0] 2 4 1).2 ≠
      Outcome.returned ∧
    (begin_unwind (fun _ => false) "m" "f" 2).2 = Outcome.halted :=
  C7_every_call_diverges (fun _ => false) "m" "f" 2 4 1 [97, 0] [102, 0]
    (fun _ => rfl)

/-- C8: fail_bounds_check enforces no precondition relating index to len:
even when index is strictly below len it renders the template with the
supplied values and dispatches exactly as in the out-of-bounds case, never
returning. -/
theorem C8_no_bounds_precondition (hook : Hook) (file : String)
    (line index len : Nat) (h : index < len) :
    dispatches (fail_bounds_check hook file line index len).1 =
      [⟨boundsMsg index len, file, line⟩] ∧
    (fail_bounds_check hook file line index len).2 ≠ Outcome.returned :=
  ⟨dispatches_fail_bounds_check hook file line index len,
    fail_bounds_check_not_returned hook file line index len⟩

/-- C8 witness: an in-bounds index still dispatches the rendered message. -/
theorem C8_no_bounds_precondition_witness :
    1 < 3 ∧
    (dispatches (fail_bounds_check (fun _ => false) "v" 6 1 3).1 =
        [⟨boundsMsg 1 3, "v", 6⟩] ∧
      (fail_bounds_check (fun _ => false) "v" 6 1 3).2 ≠
        Outcome.returned) :=
  ⟨by decide,
    C8_no_bounds_precondition (fun _ => false) "v" 6 1 3 (by decide)⟩

/-- C9: begin_unwind forwards its three arguments to the extern hook symbol
exactly once and unchanged, and the line supplied to either entry point
reaches the hook unmodified. -/
theorem C9_begin_unwind_forwards (hook : Hook) (fmt msg file : String)
    (line index len : Nat) :
    (begin_unwind hook fmt file line).1 =
      [Event.dispatchHook ⟨fmt, file, line⟩] ∧
    (dispatches (fail_ hook msg file line).1).map Invocation.line =
      [line] ∧
    (dispatches
        (fail_bounds_check hook file line index len).1).map
      Invocation.line = [line] := by
  refine ⟨rfl, ?_, ?_⟩
  · rw [dispatches_fail_]
    rfl
  · rw [dispatches_fail_bounds_check]
    rfl

/-- C10: the dispatched invocation is a function of the call arguments
alone: for any two hooks — the only external dependency in scope — each
entry point dispatches the identical message and location. -/
theorem C10_deterministic_dispatch (hook1 hook2 : Hook)
    (msg file : String) (line index len : Nat)
    (exprB fileB : List Nat) :
    dispatches (fail_ hook1 msg file line).1 =
      dispatches (fail_ hook2 msg file line).1 ∧
    dispatches (fail_bounds_check hook1 file line index len).1 =
      dispatches (fail_bounds_check hook2 file line index len).1 ∧
    dispatches (fail_stage0 hook1 exprB fileB line).1 =
      dispatches (fail_stage0 hook2 exprB fileB line).1 ∧
    dispatches (fail_bounds_check_stage0 hook1 fileB line index len).1 =
      dispatches
        (fail_bounds_check_stage0 hook2 fileB line index len).1 := by
  refine ⟨?_, ?_, ?_, ?_⟩
  · rw [dispatches_fail_, dispatches_fail_]
  · rw [dispatches_fail_bounds_check, dispatches_fail_bounds_check]
  · rw [fail_stage0_eq, fail_stage0_eq, dispatches_fail_,
      dispatches_fail_]
  · rw [fail_bounds_check_stage0_eq, fail_bounds_check_stage0_eq,
      dispatches_fail_bounds_check, dispatches_fail_bounds_check]

end Failure
